import Mathlib

/-!
Verification development for the conversify repository.

Shallow embedding of the glue code of conversify (memory manager walk,
configuration path resolution, STT/TTS adapter result construction and
error wrapping, entrypoint orchestration order), with theorems checking
the natural-language specification against the code.
-/

namespace Conversify

/-! ## Chat messages and content extraction (src/conversify/core/memory.py) -/

/-- One item of a livekit ChatMessage content list, as discriminated by
AgentMemoryManager._extract_message_content: a plain string, an object with
a text attribute, or any other object (kept as its str() rendering). -/
inductive ContentItem where
  | str (s : String)
  | withText (t : String)
  | objRepr (r : String)
  deriving DecidableEq, Repr

/-- The content field of a ChatMessage. Python distinguishes falsy content
(None, empty collections), a list of items, and any other truthy object
(kept as its str() rendering). -/
inductive MsgContent where
  | empty
  | items (l : List ContentItem)
  | other (s : String)
  deriving DecidableEq, Repr

/-- A chat message as far as save_memory inspects it: a role string and a
content field. -/
structure ChatMessage where
  role : String
  content : MsgContent
  deriving DecidableEq, Repr

/-- AgentMemoryManager._extract_message_content, src/conversify/core/memory.py
lines 325-350: falsy content yields the empty string; for a list the first
item is used (a plain string as itself, an object with a text attribute via
that attribute, anything else via str()); other content yields str(content). -/
def extractMessageContent (content : MsgContent) : String :=
  match content with
  | .empty => ""
  | .items [] => ""
  | .items (item :: _) =>
      match item with
      | .str s => s
      | .withText t => t
      | .objRepr r => r
  | .other s => s

/-- An interaction forwarded to the external memory library by
memory_manager.add_interaction: the user prompt and assistant output. -/
structure Interaction where
  prompt : String
  output : String
  deriving DecidableEq, Repr

/-- Python str.strip with no argument: remove leading and trailing
whitespace. -/
def pyStrip (s : String) : String :=
  ⟨((s.data.dropWhile Char.isWhitespace).reverse.dropWhile
      Char.isWhitespace).reverse⟩

/-- The combined text computed by save_memory before forwarding:
f-string of prompt, a space, and output, then stripped. -/
def combinedText (prompt output : String) : String :=
  pyStrip (prompt ++ " " ++ output)

/-- Forward one interaction unless its combined text is empty after
stripping (save_memory skips those), keeping the given tail after it. -/
def forwardInteraction (prompt output : String) (tail : List Interaction) :
    List Interaction :=
  if combinedText prompt output = "" then tail
  else { prompt := prompt, output := output } :: tail

/-- The while loop of AgentMemoryManager.save_memory, lines 382-443 of
src/conversify/core/memory.py, as a front-to-back walk: a user message
pairs with an immediately following assistant message (both consumed),
a user message without one forms an interaction with empty output, an
assistant message without a preceding user message is skipped, and any
other role is skipped. -/
def saveMemoryWalk : List ChatMessage → List Interaction
  | [] => []
  | m :: rest =>
    if m.role = "user" then
      match rest with
      | a :: rest2 =>
        if a.role = "assistant" then
          forwardInteraction (extractMessageContent m.content)
            (extractMessageContent a.content) (saveMemoryWalk rest2)
        else
          forwardInteraction (extractMessageContent m.content) ""
            (saveMemoryWalk (a :: rest2))
      | [] => forwardInteraction (extractMessageContent m.content) "" []
    else
      saveMemoryWalk rest

/-- AgentMemoryManager.save_memory, lines 352-452: guarded by the memory
use flag, an initialized memory manager and a non-empty item list, then
the pairing walk over the chat context items. -/
def saveMemory (memoryUse managerInitialized : Bool)
    (items : List ChatMessage) : List Interaction :=
  if !memoryUse then []
  else if !managerInitialized then []
  else if items.isEmpty then []
  else saveMemoryWalk items

/-- Modelled from the words of claim C1: the output paired with a user
message is the extracted text of the immediately following message when
that message has role assistant, and the empty string otherwise. -/
def specPairOutput (rest : List ChatMessage) : String :=
  match rest with
  | a :: _ => if a.role = "assistant" then extractMessageContent a.content else ""
  | [] => ""

/-- Modelled from the words of claim C1: every message with role user
starts exactly one interaction, in the order the user messages appear, with
prompt its extracted text and output given by specPairOutput. -/
def specUserInteractions : List ChatMessage → List Interaction
  | [] => []
  | m :: rest =>
    if m.role = "user" then
      { prompt := extractMessageContent m.content,
        output := specPairOutput rest } :: specUserInteractions rest
    else
      specUserInteractions rest

/-- Modelled from the words of claim C1: interactions whose combined prompt
and output is empty after trimming are not forwarded. -/
def specForwarded (items : List ChatMessage) : List Interaction :=
  (specUserInteractions items).filter
    (fun it => combinedText it.prompt it.output != "")

theorem specForwarded_cons_user (m : ChatMessage) (rest : List ChatMessage)
    (hm : m.role = "user") :
    specForwarded (m :: rest) =
      forwardInteraction (extractMessageContent m.content)
        (specPairOutput rest) (specForwarded rest) := by
  by_cases hz : combinedText (extractMessageContent m.content)
      (specPairOutput rest) = ""
  · simp [specForwarded, specUserInteractions, hm, forwardInteraction, hz,
      List.filter]
  · simp [specForwarded, specUserInteractions, hm, forwardInteraction, hz,
      List.filter]

theorem specForwarded_cons_other (m : ChatMessage) (rest : List ChatMessage)
    (hm : ¬ m.role = "user") :
    specForwarded (m :: rest) = specForwarded rest := by
  simp [specForwarded, specUserInteractions, hm]

theorem saveMemoryWalk_eq_aux :
    ∀ (n : Nat) (l : List ChatMessage), l.length ≤ n →
      saveMemoryWalk l = specForwarded l := by
  intro n
  induction n with
  | zero =>
    intro l hl
    have : l = [] := List.length_eq_zero.mp (Nat.le_zero.mp hl)
    subst this
    rfl
  | succ n ih =>
    intro l hl
    match l with
    | [] => rfl
    | m :: rest =>
      have hrest : rest.length ≤ n := Nat.le_of_succ_le_succ hl
      by_cases hm : m.role = "user"
      · match rest with
        | [] =>
          rw [specForwarded_cons_user m [] hm]
          simp [saveMemoryWalk, hm, specPairOutput, specForwarded,
            specUserInteractions]
        | a :: rest2 =>
          have hrest2 : rest2.length ≤ n :=
            Nat.le_of_succ_le (by simpa using hrest)
          rw [specForwarded_cons_user m (a :: rest2) hm]
          by_cases ha : a.role = "assistant"
          · have hau : ¬ a.role = "user" := by simp [ha]
            rw [specForwarded_cons_other a rest2 hau]
            have ihr := ih rest2 hrest2
            simp [saveMemoryWalk, hm, ha, specPairOutput, ihr]
          · have ihr := ih (a :: rest2) hrest
            simp [saveMemoryWalk, hm, ha, specPairOutput, ihr]
      · rw [specForwarded_cons_other m rest hm]
        have ihr := ih rest hrest
        match rest, hrest, ihr with
        | [], _, _ =>
          simp [saveMemoryWalk, hm, specForwarded, specUserInteractions]
        | a :: rest2, _, ihr => simp [saveMemoryWalk, hm, ihr]

/-- Claim C1: with memory enabled and the memory manager initialized,
save_memory walks the chat context once from front to back and forwards
exactly the interactions described by the claim: one interaction per user
message (prompt its extracted text, output the extracted text of the
immediately following assistant message when there is one, else empty),
assistant messages without a preceding user message and other roles
skipped, empty-after-trim interactions dropped, order preserved. -/
theorem save_memory_forwards_paired_turns
    (memoryUse managerInitialized : Bool) (items : List ChatMessage)
    (hUse : memoryUse = true) (hInit : managerInitialized = true) :
    saveMemory memoryUse managerInitialized items = specForwarded items := by
  subst hUse hInit
  by_cases hempty : items.isEmpty
  · have : items = [] := by
      cases items with
      | nil => rfl
      | cons a l => simp [List.isEmpty] at hempty
    subst this
    rfl
  · have hwalk := saveMemoryWalk_eq_aux items.length items (Nat.le_refl _)
    simp [saveMemory, hempty]
    exact hwalk

/-- Concrete instance of claim C1 on a small chat context exercising
pairing, skipping and the empty-interaction filter. -/
theorem save_memory_forwards_paired_turns_witness :
    (true = true) ∧
    saveMemory true true
      [ { role := "system", content := .other "sys" },
        { role := "user", content := .items [.str "hi"] },
        { role := "assistant", content := .items [.withText "hello"] },
        { role := "assistant", content := .items [.str "orphan"] },
        { role := "user", content := .items [.str ""] },
        { role := "user", content := .items [.str "bye"] } ] =
    specForwarded
      [ { role := "system", content := .other "sys" },
        { role := "user", content := .items [.str "hi"] },
        { role := "assistant", content := .items [.withText "hello"] },
        { role := "assistant", content := .items [.str "orphan"] },
        { role := "user", content := .items [.str ""] },
        { role := "user", content := .items [.str "bye"] } ] :=
  ⟨rfl, save_memory_forwards_paired_turns true true _ rfl rfl⟩

/-! ## Configuration loading (src/conversify/utils/config.py) -/

/-- os.path.isabs for POSIX paths: the path starts with the separator. -/
def isAbsPath (s : String) : Bool :=
  s.data.head? == some '/'

/-- os.path.join on two POSIX components (posixpath.join): an absolute
second component replaces the first; otherwise the components are joined,
inserting a separator unless the first is empty or already ends in one. -/
def osPathJoin (a b : String) : String :=
  if isAbsPath b then b
  else if a = "" ∨ a.data.getLast? = some '/' then a ++ b
  else a ++ "/" ++ b

/-- ConfigManager._resolve_path: os.path.abspath(os.path.join(root, rel)).
The project root is an absolute normalized directory, so abspath is the
identity on the join. -/
def resolvePath (root rel : String) : String :=
  osPathJoin root rel

/-- The agent table of the configuration, as far as path resolution reads
it. An instructions_file value of none models a missing key, some of the
empty string a key set to an empty value (both are falsy in Python). -/
structure AgentSection where
  instructions_file : Option String
  deriving DecidableEq, Repr

/-- The memory table of the configuration. A missing table is modelled by
use false and dir none, matching the .get defaults in the source. -/
structure MemorySection where
  use : Bool
  dir : Option String
  deriving DecidableEq, Repr

/-- The stt.whisper path keys read by _resolve_paths_in_config. A missing
table is modelled by both fields none, matching the .get defaults. -/
structure WhisperPathSection where
  model_cache_directory : Option String
  warmup_audio : Option String
  deriving DecidableEq, Repr

/-- The logging table of the configuration. -/
structure LoggingSection where
  file : Option String
  deriving DecidableEq, Repr

/-- The parsed TOML configuration table, restricted to the keys
_resolve_paths_in_config touches. agent none models a missing or non-table
agent section. -/
structure ConfigTable where
  agent : Option AgentSection
  memory : MemorySection
  whisper : WhisperPathSection
  logging : LoggingSection
  deriving DecidableEq, Repr

/-- Errors raised by _resolve_paths_in_config and _load_prompt: KeyError
with its message, or an OSError from opening the prompt file. -/
inductive ConfigError where
  | keyError (msg : String)
  | fileError (path : String)
  deriving DecidableEq, Repr

/-- The configuration dictionary after _resolve_paths_in_config mutated it:
the agent section gained instructions, the memory section gained dir_abs
when memory is in use, the whisper paths were resolved, and logging gained
file_abs when the configured file is relative. -/
structure ResolvedConfig where
  instructions_file : String
  instructions : String
  memory_use : Bool
  memory_dir : Option String
  memory_dir_abs : Option String
  model_cache_directory : Option String
  warmup_audio : Option String
  logging_file : Option String
  logging_file_abs : Option String
  deriving DecidableEq, Repr

/-- ConfigManager._load_prompt, src/conversify/utils/config.py lines 45-57:
resolve the prompt path against the project root, read the file through the
filesystem map fs, and strip the contents; a missing file raises. -/
def loadPrompt (root : String) (fs : String → Option String)
    (promptPath : String) : Except ConfigError String :=
  match fs (resolvePath root promptPath) with
  | none => .error (.fileError (resolvePath root promptPath))
  | some content => .ok (pyStrip content)

/-- The treatment applied to stt.whisper.model_cache_directory and to
stt.whisper.warmup_audio by _resolve_paths_in_config: a truthy relative
value is replaced by its project-root resolution, anything else is left
unchanged. -/
def whisperPathResolve (root : String) (p : Option String) : Option String :=
  match p with
  | some s => if s != "" && !(isAbsPath s) then some (resolvePath root s) else some s
  | none => none

/-- The memory block of _resolve_paths_in_config: when memory.use is
truthy, a falsy memory.dir raises KeyError and otherwise dir_abs is the
project-root resolution of memory.dir; when memory is not in use no
dir_abs is produced. -/
def memoryDirStep (root : String) (m : MemorySection) :
    Except ConfigError (Option String) :=
  if m.use then
    match m.dir with
    | none => .error (.keyError "memory.use=true but memory.dir is not set")
    | some d =>
      if d = "" then
        .error (.keyError "memory.use=true but memory.dir is not set")
      else .ok (some (resolvePath root d))
  else .ok none

/-- ConfigManager._resolve_paths_in_config, src/conversify/utils/config.py
lines 59-109, over the abstract filesystem fs: agent prompt loading first,
then memory directory resolution, then whisper path resolution, then the
logging file path. Python truthiness tests (if not prompt_file, if not
memory_dir_rel, if mcd) are rendered as the none check plus the empty
string check. -/
def resolvePathsInConfig (root : String) (fs : String → Option String)
    (c : ConfigTable) : Except ConfigError ResolvedConfig :=
  match c.agent with
  | none => .error (.keyError "Missing required section: agent")
  | some agentCfg =>
    match agentCfg.instructions_file with
    | none => .error (.keyError "Missing required key: agent.instructions_file")
    | some promptFile =>
      if promptFile = "" then
        .error (.keyError "Missing required key: agent.instructions_file")
      else
        match loadPrompt root fs promptFile with
        | .error e => .error e
        | .ok instructions =>
          match memoryDirStep root c.memory with
          | .error e => .error e
          | .ok memoryDirAbs =>
            .ok { instructions_file := promptFile,
                  instructions := instructions,
                  memory_use := c.memory.use,
                  memory_dir := c.memory.dir,
                  memory_dir_abs := memoryDirAbs,
                  model_cache_directory :=
                    whisperPathResolve root c.whisper.model_cache_directory,
                  warmup_audio :=
                    whisperPathResolve root c.whisper.warmup_audio,
                  logging_file := c.logging.file,
                  logging_file_abs :=
                    match c.logging.file with
                    | some s =>
                      if s != "" && !(isAbsPath s)
                      then some (resolvePath root s) else none
                    | none => none }

theorem resolvePathsInConfig_ok_elim
    (root : String) (fs : String → Option String) (c : ConfigTable)
    (out : ResolvedConfig) (h : resolvePathsInConfig root fs c = Except.ok out) :
    ∃ a f content, c.agent = some a ∧ a.instructions_file = some f ∧ f ≠ "" ∧
      fs (resolvePath root f) = some content ∧
      out.instructions_file = f ∧ out.instructions = pyStrip content ∧
      out.memory_use = c.memory.use ∧ out.memory_dir = c.memory.dir ∧
      (c.memory.use = true → ∃ d, c.memory.dir = some d ∧ d ≠ "" ∧
         out.memory_dir_abs = some (resolvePath root d)) ∧
      (c.memory.use = false → out.memory_dir_abs = none) ∧
      out.model_cache_directory =
        whisperPathResolve root c.whisper.model_cache_directory ∧
      out.warmup_audio = whisperPathResolve root c.whisper.warmup_audio := by
  rcases hA : c.agent with _ | a
  · simp only [resolvePathsInConfig, hA] at h
    cases h
  · simp only [resolvePathsInConfig, hA] at h
    rcases hF : a.instructions_file with _ | f
    · simp only [hF] at h
      cases h
    · simp only [hF] at h
      by_cases hfe : f = ""
      · rw [if_pos hfe] at h; cases h
      · rw [if_neg hfe] at h
        simp only [loadPrompt] at h
        rcases hfs : fs (resolvePath root f) with _ | content
        · simp only [hfs] at h
          cases h
        · simp only [hfs] at h
          rcases hu : c.memory.use with _ | _
          · simp only [memoryDirStep, hu, Bool.false_eq_true, if_false] at h
            cases h
            refine ⟨a, f, content, ?_, ?_, ?_, ?_, ?_, ?_, ?_, ?_, ?_, ?_,
              ?_, ?_⟩ <;> simp_all
          · simp only [memoryDirStep, hu, if_true] at h
            rcases hd : c.memory.dir with _ | d
            · simp only [hd] at h
              cases h
            · simp only [hd] at h
              by_cases hde : d = ""
              · rw [if_pos hde] at h; cases h
              · rw [if_neg hde] at h
                cases h
                refine ⟨a, f, content, ?_, ?_, ?_, ?_, ?_, ?_, ?_, ?_, ?_, ?_,
                  ?_, ?_⟩ <;> simp_all

/-- Claim C2 (amended): relative stt.whisper paths that are present and
nonempty are replaced by their project-root resolution while absolute ones
are kept; on a successful load with memory.use true, memory.dir_abs is the
project-root resolution of memory.dir, and a KeyError is raised when
memory.dir is unset; agent.instructions is the stripped contents of the
file named by agent.instructions_file, and a KeyError is raised when the
agent section or agent.instructions_file is missing. -/
theorem load_config_resolves_paths
    (root : String) (fs : String → Option String) (c : ConfigTable) :
    (∀ out s, resolvePathsInConfig root fs c = Except.ok out →
       c.whisper.model_cache_directory = some s → s ≠ "" → isAbsPath s = false →
       out.model_cache_directory = some (resolvePath root s)) ∧
    (∀ out s, resolvePathsInConfig root fs c = Except.ok out →
       c.whisper.model_cache_directory = some s → isAbsPath s = true →
       out.model_cache_directory = some s) ∧
    (∀ out s, resolvePathsInConfig root fs c = Except.ok out →
       c.whisper.warmup_audio = some s → s ≠ "" → isAbsPath s = false →
       out.warmup_audio = some (resolvePath root s)) ∧
    (∀ out s, resolvePathsInConfig root fs c = Except.ok out →
       c.whisper.warmup_audio = some s → isAbsPath s = true →
       out.warmup_audio = some s) ∧
    (∀ out d, resolvePathsInConfig root fs c = Except.ok out →
       c.memory.use = true → c.memory.dir = some d →
       out.memory_dir_abs = some (resolvePath root d)) ∧
    (∀ out a f content, resolvePathsInConfig root fs c = Except.ok out →
       c.agent = some a → a.instructions_file = some f →
       fs (resolvePath root f) = some content →
       out.instructions_file = f ∧ out.instructions = pyStrip content) ∧
    (c.agent = none →
       resolvePathsInConfig root fs c =
         Except.error (ConfigError.keyError "Missing required section: agent")) ∧
    (∀ a, c.agent = some a → a.instructions_file = none →
       resolvePathsInConfig root fs c =
         Except.error (ConfigError.keyError "Missing required key: agent.instructions_file")) ∧
    (∀ a f content, c.agent = some a → a.instructions_file = some f → f ≠ "" →
       fs (resolvePath root f) = some content →
       c.memory.use = true → c.memory.dir = none →
       resolvePathsInConfig root fs c =
         Except.error (ConfigError.keyError "memory.use=true but memory.dir is not set")) := by
  refine ⟨?_, ?_, ?_, ?_, ?_, ?_, ?_, ?_, ?_⟩
  · intro out s h hs hne habs
    obtain ⟨a, f, content, _, _, _, _, _, _, _, _, _, _, hmcd, _⟩ :=
      resolvePathsInConfig_ok_elim root fs c out h
    rw [hmcd, hs, whisperPathResolve]
    simp [hne, habs]
  · intro out s h hs habs
    obtain ⟨a, f, content, _, _, _, _, _, _, _, _, _, _, hmcd, _⟩ :=
      resolvePathsInConfig_ok_elim root fs c out h
    rw [hmcd, hs, whisperPathResolve]
    simp [habs]
  · intro out s h hs hne habs
    obtain ⟨a, f, content, _, _, _, _, _, _, _, _, _, _, _, hwa⟩ :=
      resolvePathsInConfig_ok_elim root fs c out h
    rw [hwa, hs, whisperPathResolve]
    simp [hne, habs]
  · intro out s h hs habs
    obtain ⟨a, f, content, _, _, _, _, _, _, _, _, _, _, _, hwa⟩ :=
      resolvePathsInConfig_ok_elim root fs c out h
    rw [hwa, hs, whisperPathResolve]
    simp [habs]
  · intro out d h hu hd
    obtain ⟨a, f, content, _, _, _, _, _, _, _, _, hmem, _, _, _⟩ :=
      resolvePathsInConfig_ok_elim root fs c out h
    obtain ⟨d2, hd2, _, habs2⟩ := hmem hu
    rw [hd] at hd2
    cases hd2
    exact habs2
  · intro out a f content h hA hF hfs
    obtain ⟨a2, f2, content2, hA2, hF2, _, hfs2, hif, hins, _, _, _, _, _, _⟩ :=
      resolvePathsInConfig_ok_elim root fs c out h
    rw [hA] at hA2
    cases hA2
    rw [hF] at hF2
    cases hF2
    rw [hfs] at hfs2
    cases hfs2
    exact ⟨hif, hins⟩
  · intro hA
    simp only [resolvePathsInConfig, hA]
  · intro a hA hF
    simp only [resolvePathsInConfig, hA, hF]
  · intro a f content hA hF hfe hfs hu hd
    simp only [resolvePathsInConfig, hA, hF, if_neg hfe, loadPrompt, hfs,
      memoryDirStep, hu, if_true, hd]

/-- A small filesystem for the configuration examples: a single prompt
file under the project root. -/
def exampleFs : String → Option String :=
  fun p => if p = "/proj/prompt.txt" then some "  be brief  " else none

/-- A configuration whose stt.whisper.warmup_audio is present but the
empty string (memory disabled so loading succeeds). -/
def cfgEmptyWarmup : ConfigTable :=
  { agent := some { instructions_file := some "prompt.txt" },
    memory := { use := false, dir := none },
    whisper := { model_cache_directory := none, warmup_audio := some "" },
    logging := { file := none } }

/-- A configuration with memory enabled and memory.dir present but empty. -/
def cfgEmptyMemoryDir : ConfigTable :=
  { agent := some { instructions_file := some "prompt.txt" },
    memory := { use := true, dir := some "" },
    whisper := { model_cache_directory := none, warmup_audio := none },
    logging := { file := none } }

/-- Counterexample to claim C2 as frozen: a present but empty
stt.whisper.warmup_audio is relative (os.path.isabs of the empty string is
false) yet the loader leaves it unchanged instead of replacing it with the
project-root-joined path; and with memory.use true and memory.dir present
but empty, loading raises KeyError, so memory.dir_abs is not set to the
project-root-resolved memory.dir. -/
theorem load_config_resolves_paths_counterexample :
    resolvePathsInConfig "/proj" exampleFs cfgEmptyWarmup =
      Except.ok { instructions_file := "prompt.txt",
                  instructions := "be brief",
                  memory_use := false,
                  memory_dir := none,
                  memory_dir_abs := none,
                  model_cache_directory := none,
                  warmup_audio := some "",
                  logging_file := none,
                  logging_file_abs := none } ∧
    isAbsPath "" = false ∧
    ("" : String) ≠ resolvePath "/proj" "" ∧
    resolvePathsInConfig "/proj" exampleFs cfgEmptyMemoryDir =
      Except.error (ConfigError.keyError "memory.use=true but memory.dir is not set") := by
  refine ⟨rfl, rfl, by decide, rfl⟩

/-- Concrete instance of claim C2 on a configuration exercising each
resolved path, obtained through the main theorem. -/
theorem load_config_resolves_paths_witness :
    (resolvePathsInConfig "/proj" exampleFs
      { agent := some { instructions_file := some "prompt.txt" },
        memory := { use := true, dir := some "mem" },
        whisper := { model_cache_directory := some "/abs/cache",
                     warmup_audio := some "audio/warm.wav" },
        logging := { file := none } }).map
      (fun out => (out.warmup_audio, out.model_cache_directory,
                   out.memory_dir_abs, out.instructions)) =
    Except.ok (some "/proj/audio/warm.wav", some "/abs/cache",
               some "/proj/mem", "be brief") := by
  have h := load_config_resolves_paths "/proj" exampleFs
    { agent := some { instructions_file := some "prompt.txt" },
      memory := { use := true, dir := some "mem" },
      whisper := { model_cache_directory := some "/abs/cache",
                   warmup_audio := some "audio/warm.wav" },
      logging := { file := none } }
  have hok : resolvePathsInConfig "/proj" exampleFs
      { agent := some { instructions_file := some "prompt.txt" },
        memory := { use := true, dir := some "mem" },
        whisper := { model_cache_directory := some "/abs/cache",
                     warmup_audio := some "audio/warm.wav" },
        logging := { file := none } } =
      Except.ok { instructions_file := "prompt.txt",
                  instructions := "be brief",
                  memory_use := true,
                  memory_dir := some "mem",
                  memory_dir_abs := some "/proj/mem",
                  model_cache_directory := some "/abs/cache",
                  warmup_audio := some "/proj/audio/warm.wav",
                  logging_file := none,
                  logging_file_abs := none } := rfl
  have hwa := h.2.2.1 _ "audio/warm.wav" hok rfl (by decide) (by decide)
  have hmcd := h.2.1 _ "/abs/cache" hok rfl (by decide)
  have hmem := h.2.2.2.2.1 _ "mem" hok rfl rfl
  have hins := h.2.2.2.2.2.1 _ _ "prompt.txt" "  be brief  " hok rfl rfl (by decide)
  rw [hok]
  simp only [Except.map]

/-! ## STT and TTS adapters (src/conversify/models) -/

/-- A Python exception as the adapters classify it: the openai timeout
error, the openai status error with the fields the TTS stream copies, or
any other exception identified by its rendering. -/
inductive PyExc where
  | openaiAPITimeout
  | openaiAPIStatus (message : String) (statusCode : Int)
      (requestId : Option String) (body : Option String)
  | otherExc (name : String)
  deriving DecidableEq, Repr

/-- The livekit.agents error types raised by the adapters. The cause field
of apiConnection records exception chaining: the STT adapters raise from
the original exception, the TTS stream raises from None. -/
inductive LKError where
  | apiConnection (cause : Option PyExc)
  | apiTimeout
  | apiStatus (message : String) (statusCode : Int)
      (requestId : Option String) (body : Option String)
  deriving DecidableEq, Repr

/-- livekit.agents stt.SpeechEventType, restricted to the values the
adapters produce. -/
inductive SpeechEventType where
  | finalTranscript
  | interimTranscript
  deriving DecidableEq, Repr

/-- livekit.agents stt.SpeechData as the adapters fill it. -/
structure SpeechData where
  text : String
  language : String
  deriving DecidableEq, Repr

/-- livekit.agents stt.SpeechEvent as the adapters fill it. -/
structure SpeechEvent where
  type : SpeechEventType
  alternatives : List SpeechData
  deriving DecidableEq, Repr

/-- The WhisperOptions dataclass of src/conversify/models/stt.py lines
40-58, with the dataclass defaults. -/
structure WhisperOptions where
  language : String
  model : String
  backend : String := "faster-whisper"
  device : Option String := none
  compute_type : Option String := none
  model_cache_directory : Option String := none
  warmup_audio : Option String := none
  cpu_threads : Option Nat := none
  num_workers : Option Nat := none
  beam_size : Nat := 1
  best_of : Nat := 1
  word_timestamps : Bool := false
  vad_filter : Bool := false
  vad_min_silence_ms : Nat := 500
  condition_on_previous_text : Bool := true
  initial_prompt : Option String := none
  deriving DecidableEq, Repr

/-- The OpenAIWhisperOptions dataclass of src/conversify/models/stt_openai.py
lines 20-24. -/
structure OpenAIWhisperOptions where
  language : String
  model : String
  deriving DecidableEq, Repr

/-- The KokoroTTSOptions dataclass of src/conversify/models/tts.py lines
30-34. The float speed is modelled as a rational. -/
structure KokoroTTSOptions where
  model : String
  voice : String
  speed : ℚ
  deriving DecidableEq, Repr

/-- WhisperSTT._sanitize_options, src/conversify/models/stt.py lines
267-279: dataclasses.replace copies the stored options, then a truthy
language override is written into the copy. -/
def sanitizeOptions (opts : WhisperOptions) (language : Option String) :
    WhisperOptions :=
  let options := opts
  match language with
  | some l => if l = "" then options else { options with language := l }
  | none => options

/-- The Python expression x or y for an optional string x: y when x is
None or empty, x otherwise. -/
def pyOrStr (x : Option String) (y : String) : String :=
  match x with
  | some l => if l = "" then y else l
  | none => y

/-- Decoded audio as sf.read returns it: one-dimensional for a mono WAV,
two-dimensional (frames by channels) for a multi-channel WAV. The float32
samples are modelled as rationals. -/
inductive DecodedAudio where
  | mono (samples : List ℚ)
  | multi (frames : List (List ℚ))
  deriving DecidableEq, Repr

/-- np.mean over one frame: sum divided by length (empty frames do not
arise from decoded WAV data; division by zero yields zero). -/
def frameMean (frame : List ℚ) : ℚ :=
  frame.sum / (frame.length : ℚ)

/-- The audio preparation in WhisperSTT._recognize_impl lines 308-310: the
WAV bytes of the combined frames are decoded by sf.read (the DecodedAudio
input stands for that decoded array) and a more-than-one-dimensional array
is replaced by np.mean(audio, axis=1). -/
def recognizePreparedAudio (audio : DecodedAudio) : List ℚ :=
  match audio with
  | .mono samples => samples
  | .multi frames => frames.map frameMean

/-- The identical audio preparation in WhisperSTT._warmup lines 209-211,
applied to the decoded warmup audio file. -/
def warmupPreparedAudio (audio : DecodedAudio) : List ℚ :=
  match audio with
  | .mono samples => samples
  | .multi frames => frames.map frameMean

/-- The two local transcription backends of WhisperSTT, as oracles from
prepared audio and language to a result: faster-whisper yields segment
texts, openai whisper yields the text entry of its result dict (none
standing for a non-dict result). -/
structure WhisperBackend where
  fwTranscribe : List ℚ → String → Except PyExc (List String)
  oaTranscribe : List ℚ → String → Except PyExc (Option String)

/-- WhisperSTT._recognize_impl, src/conversify/models/stt.py lines 281-347:
convert the NotGivenOr language argument (none models NOT_GIVEN or None),
sanitize options, prepare the decoded audio, transcribe with the configured
backend (faster-whisper joins the stripped segment texts with spaces, the
openai backend strips the text entry of a dict result and yields the empty
string otherwise), and wrap the text in a FINAL_TRANSCRIPT event with one
alternative; any exception becomes APIConnectionError chained from it. -/
def whisperRecognizeImpl (opts : WhisperOptions) (language : Option String)
    (decoded : DecodedAudio) (backend : WhisperBackend) :
    Except LKError SpeechEvent :=
  let options := sanitizeOptions opts language
  let audio := recognizePreparedAudio decoded
  let fullTextResult : Except PyExc String :=
    if opts.backend = "faster-whisper" then
      match backend.fwTranscribe audio options.language with
      | .error e => .error e
      | .ok segments => .ok (String.intercalate " " (segments.map pyStrip))
    else
      match backend.oaTranscribe audio options.language with
      | .error e => .error e
      | .ok none => .ok ""
      | .ok (some t) => .ok (pyStrip t)
  match fullTextResult with
  | .error e => .error (.apiConnection (some e))
  | .ok fullText =>
    .ok { type := .finalTranscript,
          alternatives := [{ text := fullText, language := options.language }] }

/-- OpenAIWhisperSTT._recognize_impl, src/conversify/models/stt_openai.py
lines 52-92: the combined WAV bytes go to the transcription API (the api
oracle, taking the language actually sent) and the response text (possibly
None) is wrapped in a FINAL_TRANSCRIPT event with one alternative; any
exception becomes APIConnectionError chained from it. The language sent
and stored is the Python expression language or opts.language. -/
def openaiWhisperRecognizeImpl (opts : OpenAIWhisperOptions)
    (language : Option String)
    (api : String → Except PyExc (Option String)) :
    Except LKError SpeechEvent :=
  let lang := pyOrStr language opts.language
  match api lang with
  | .error e => .error (.apiConnection (some e))
  | .ok t =>
    .ok { type := .finalTranscript,
          alternatives := [{ text := t.getD "", language := lang }] }

/-- KokoroTTSStream._run, src/conversify/models/tts.py lines 125-168,
restricted to its error translation: the streaming synthesis (the
streamResult input) either completes or raises; openai.APITimeoutError
becomes APITimeoutError, openai.APIStatusError becomes APIStatusError with
message, status_code, request_id and body preserved, and any other
exception becomes APIConnectionError, all raised from None. -/
def kokoroRun (streamResult : Except PyExc Unit) : Except LKError Unit :=
  match streamResult with
  | .ok _ => .ok ()
  | .error .openaiAPITimeout => .error .apiTimeout
  | .error (.openaiAPIStatus message statusCode requestId body) =>
      .error (.apiStatus message statusCode requestId body)
  | .error (.otherExc _) => .error (.apiConnection none)

/-- The stt.whisper configuration table as WhisperSTT.__init__ reads it:
language, model, device, compute_type, model_cache_directory and
warmup_audio by direct indexing, backend by .get with a default. -/
structure WhisperConfigSection where
  language : String
  model : String
  backend : Option String
  device : Option String
  compute_type : Option String
  model_cache_directory : Option String
  warmup_audio : Option String
  deriving DecidableEq, Repr

/-- The construction of self._opts in WhisperSTT.__init__,
src/conversify/models/stt.py lines 61-110 (the remaining WhisperOptions
fields keep their dataclass defaults). -/
def whisperOptionsOfConfig (cfg : WhisperConfigSection) : WhisperOptions :=
  { language := cfg.language,
    model := cfg.model,
    backend := cfg.backend.getD "faster-whisper",
    device := cfg.device,
    compute_type := cfg.compute_type,
    model_cache_directory := cfg.model_cache_directory,
    warmup_audio := cfg.warmup_audio }

/-- The tts.kokoro configuration table as KokoroTTS.__init__ reads it. -/
structure KokoroConfigSection where
  model : String
  voice : String
  speed : ℚ
  deriving DecidableEq, Repr

/-- The construction of self._opts in KokoroTTS.__init__,
src/conversify/models/tts.py lines 37-85. -/
def kokoroOptionsOfConfig (cfg : KokoroConfigSection) : KokoroTTSOptions :=
  { model := cfg.model, voice := cfg.voice, speed := cfg.speed }

/-- The stt.openai configuration table as OpenAIWhisperSTT.__init__ reads
it (api_key goes to the client, not to the options). -/
structure OpenAIConfigSection where
  language : String
  model : String
  deriving DecidableEq, Repr

/-- The construction of self._opts in OpenAIWhisperSTT.__init__,
src/conversify/models/stt_openai.py lines 30-50. -/
def openaiWhisperOptionsOfConfig (cfg : OpenAIConfigSection) :
    OpenAIWhisperOptions :=
  { language := cfg.language, model := cfg.model }

/-- Claim C3: every exception during recognition is wrapped by both STT
adapters into APIConnectionError chained from the original exception, and
the Kokoro TTS stream translates openai.APITimeoutError into
APITimeoutError, openai.APIStatusError into APIStatusError preserving
message, status_code, request_id and body, and any other exception into
APIConnectionError. -/
theorem adapters_wrap_errors
    (opts : WhisperOptions) (oopts : OpenAIWhisperOptions)
    (language : Option String) (decoded : DecodedAudio) (e : PyExc)
    (msg : String) (code : Int) (reqId body : Option String) (name : String) :
    whisperRecognizeImpl opts language decoded
        { fwTranscribe := fun _ _ => .error e,
          oaTranscribe := fun _ _ => .error e } =
      .error (.apiConnection (some e)) ∧
    openaiWhisperRecognizeImpl oopts language (fun _ => .error e) =
      .error (.apiConnection (some e)) ∧
    kokoroRun (.error .openaiAPITimeout) = .error .apiTimeout ∧
    kokoroRun (.error (.openaiAPIStatus msg code reqId body)) =
      .error (.apiStatus msg code reqId body) ∧
    kokoroRun (.error (.otherExc name)) = .error (.apiConnection none) := by
  refine ⟨?_, rfl, rfl, rfl, rfl⟩
  by_cases hb : opts.backend = "faster-whisper" <;>
    simp [whisperRecognizeImpl, hb]

/-- Modelled from the words of claim C4 (as amended): the language of the
produced alternative is the per-call override when one is given and
nonempty, and the configured language otherwise. -/
def effectiveLanguage (configured : String) (language : Option String) :
    String :=
  match language with
  | some l => if l = "" then configured else l
  | none => configured

theorem pyOrStr_eq_effectiveLanguage (configured : String)
    (language : Option String) :
    pyOrStr language configured = effectiveLanguage configured language := by
  cases language <;> rfl

theorem sanitizeOptions_language (opts : WhisperOptions)
    (language : Option String) :
    (sanitizeOptions opts language).language =
      effectiveLanguage opts.language language := by
  cases language with
  | none => rfl
  | some l =>
    by_cases hl : l = "" <;> simp [sanitizeOptions, effectiveLanguage, hl]

/-- A backend and an api oracle that always succeed with the text hello,
for the concrete STT instances. -/
def helloBackend : WhisperBackend :=
  { fwTranscribe := fun _ _ => .ok ["hello"],
    oaTranscribe := fun _ _ => .ok (some "hello") }

/-- Counterexample to claim C4 as frozen: a given override that is the
empty string is ignored by both adapters (Python truthiness), so the
alternative carries the configured language instead of the given
override. -/
theorem stt_success_language_counterexample :
    whisperRecognizeImpl { language := "en", model := "small" } (some "")
        (.mono []) helloBackend =
      .ok { type := .finalTranscript,
            alternatives := [{ text := "hello", language := "en" }] } ∧
    openaiWhisperRecognizeImpl { language := "en", model := "whisper-1" }
        (some "") (fun _ => .ok (some "hello")) =
      .ok { type := .finalTranscript,
            alternatives := [{ text := "hello", language := "en" }] } ∧
    ("en" : String) ≠ "" :=
  ⟨rfl, rfl, by decide⟩

/-- Claim C4 (amended): on every successful recognition both STT adapters
return a FINAL_TRANSCRIPT SpeechEvent with exactly one alternative; the
alternative text is the transcription (space-joined stripped segment texts
for the faster-whisper backend, the stripped dict text for the local
openai backend, the response text for the API adapter; never None, the
empty string when the backend yields nothing) and its language is the
per-call override when given and nonempty, the configured language
otherwise. -/
theorem stt_success_final_transcript
    (opts : WhisperOptions) (oopts : OpenAIWhisperOptions)
    (language : Option String) (decoded : DecodedAudio)
    (backend : WhisperBackend)
    (api : String → Except PyExc (Option String)) :
    (∀ segments,
      opts.backend = "faster-whisper" →
      backend.fwTranscribe (recognizePreparedAudio decoded)
          (effectiveLanguage opts.language language) = .ok segments →
      whisperRecognizeImpl opts language decoded backend =
        .ok { type := .finalTranscript,
              alternatives :=
                [{ text := String.intercalate " " (segments.map pyStrip),
                   language := effectiveLanguage opts.language language }] }) ∧
    (∀ t, opts.backend ≠ "faster-whisper" →
      backend.oaTranscribe (recognizePreparedAudio decoded)
          (effectiveLanguage opts.language language) = .ok t →
      whisperRecognizeImpl opts language decoded backend =
        .ok { type := .finalTranscript,
              alternatives :=
                [{ text := (t.map pyStrip).getD "",
                   language := effectiveLanguage opts.language language }] }) ∧
    (∀ t, api (effectiveLanguage oopts.language language) = .ok t →
      openaiWhisperRecognizeImpl oopts language api =
        .ok { type := .finalTranscript,
              alternatives :=
                [{ text := t.getD "",
                   language := effectiveLanguage oopts.language language }] }) := by
  refine ⟨?_, ?_, ?_⟩
  · intro segments hb hok
    simp only [whisperRecognizeImpl, sanitizeOptions_language, hb, if_true]
    simp [hok]
  · intro t hb hok
    simp only [whisperRecognizeImpl, sanitizeOptions_language, hb, if_false]
    cases t <;> simp [hok]
  · intro t hok
    simp only [openaiWhisperRecognizeImpl, pyOrStr_eq_effectiveLanguage]
    cases t <;> simp [hok]

/-- Concrete instance of claim C4: a nonempty override and a two-segment
faster-whisper result. -/
theorem stt_success_final_transcript_witness :
    (({ language := "en", model := "small" } : WhisperOptions).backend =
        "faster-whisper") ∧
    whisperRecognizeImpl { language := "en", model := "small" } (some "fr")
        (.mono []) { fwTranscribe := fun _ _ => .ok [" hi ", "there"],
                     oaTranscribe := fun _ _ => .ok none } =
      .ok { type := .finalTranscript,
            alternatives := [{ text := "hi there", language := "fr" }] } :=
  ⟨rfl,
    (stt_success_final_transcript { language := "en", model := "small" }
        { language := "en", model := "whisper-1" } (some "fr") (.mono [])
        { fwTranscribe := fun _ _ => .ok [" hi ", "there"],
          oaTranscribe := fun _ _ => .ok none }
        (fun _ => .ok none)).1 [" hi ", "there"] rfl rfl⟩

/-- Claim C5: in WhisperSTT the combined frames are decoded from WAV bytes
and a decoded buffer with more than one channel is downmixed to mono by
the per-sample mean across channels before transcription, and the warmup
path applies the identical preparation. -/
theorem recognize_downmixes_multichannel (frames : List (List ℚ)) (c : Nat)
    (hc : 1 < c) (hrect : ∀ f ∈ frames, f.length = c) :
    recognizePreparedAudio (.multi frames) =
      frames.map (fun f => f.sum / (c : ℚ)) ∧
    (∀ audio, warmupPreparedAudio audio = recognizePreparedAudio audio) := by
  constructor
  · simp only [recognizePreparedAudio]
    apply List.map_congr_left
    intro f hf
    rw [frameMean, hrect f hf]
  · intro audio
    cases audio <;> rfl

/-- Concrete instance of claim C5: two frames of two channels each are
downmixed to their per-sample means. -/
theorem recognize_downmixes_multichannel_witness :
    (1 < 2) ∧
    recognizePreparedAudio (.multi [[1, 3], [2, 4]]) =
      ([[1, 3], [2, 4]] : List (List ℚ)).map (fun f => f.sum / (2 : ℚ)) :=
  ⟨by decide,
    (recognize_downmixes_multichannel [[1, 3], [2, 4]] 2 (by decide)
      (by decide)).1⟩

/-- Claim C6: the three adapter constructors map configuration keys
one-to-one into their dataclass fields, with WhisperOptions.backend
defaulting to faster-whisper when the key is absent. -/
theorem adapter_config_field_mapping (w : WhisperConfigSection)
    (k : KokoroConfigSection) (o : OpenAIConfigSection) :
    (whisperOptionsOfConfig w).language = w.language ∧
    (whisperOptionsOfConfig w).model = w.model ∧
    (whisperOptionsOfConfig w).backend = w.backend.getD "faster-whisper" ∧
    (whisperOptionsOfConfig w).device = w.device ∧
    (whisperOptionsOfConfig w).compute_type = w.compute_type ∧
    (whisperOptionsOfConfig w).model_cache_directory =
      w.model_cache_directory ∧
    (whisperOptionsOfConfig w).warmup_audio = w.warmup_audio ∧
    (kokoroOptionsOfConfig k).model = k.model ∧
    (kokoroOptionsOfConfig k).voice = k.voice ∧
    (kokoroOptionsOfConfig k).speed = k.speed ∧
    (openaiWhisperOptionsOfConfig o).language = o.language ∧
    (openaiWhisperOptionsOfConfig o).model = o.model :=
  ⟨rfl, rfl, rfl, rfl, rfl, rfl, rfl, rfl, rfl, rfl, rfl, rfl⟩

/-! ## Per-participant memory storage file (src/conversify/core/memory.py) -/

/-- The per-participant storage file computed by
AgentMemoryManager._initialize_memory_manager, src/conversify/core/memory.py
lines 235-237: os.path.join(memory_dir_abs, participant_identity plus the
extension json). -/
def memoryFilePath (memoryDirAbs participantIdentity : String) : String :=
  osPathJoin memoryDirAbs (participantIdentity ++ ".json")

theorem isAbsPath_append_json (s : String) (h : isAbsPath s = false) :
    isAbsPath (s ++ ".json") = false := by
  rcases s with ⟨l⟩
  cases l with
  | nil => rfl
  | cons c cs =>
    simp only [isAbsPath, String.data_append] at h ⊢
    simpa using h

theorem string_append_left_cancel (a b c : String) (h : a ++ b = a ++ c) :
    b = c := by
  rcases b with ⟨lb⟩
  rcases c with ⟨lc⟩
  have hd : a.data ++ lb = a.data ++ lc := by
    have := congrArg String.data h
    simpa [String.data_append] using this
  have : lb = lc := List.append_cancel_left hd
  rw [this]

theorem append_json_inj (id1 id2 : String)
    (h : id1 ++ ".json" = id2 ++ ".json") : id1 = id2 := by
  rcases id1 with ⟨l1⟩
  rcases id2 with ⟨l2⟩
  have hd : l1 ++ (".json" : String).data = l2 ++ (".json" : String).data := by
    have := congrArg String.data h
    simpa [String.data_append] using this
  have : l1 = l2 := List.append_cancel_right hd
  rw [this]

/-- Counterexample to claim C7 as frozen: os.path.join discards the memory
directory when the joined component is absolute, so a participant identity
that is itself an absolute path can collide with a different relative
identity: identities u and /mem/u both map to the file /mem/u.json under
the memory directory /mem. -/
theorem memory_file_paths_counterexample :
    ("u" : String) ≠ "/mem/u" ∧
    memoryFilePath "/mem" "u" = memoryFilePath "/mem" "/mem/u" :=
  ⟨by decide, by decide⟩

/-- Claim C7 (amended): each participant identity gets the storage file
os.path.join(memory_dir_abs, identity + json extension), and two distinct
identities that are not absolute paths never share a storage file. -/
theorem memory_file_paths_disjoint (d id1 id2 : String)
    (h1 : isAbsPath id1 = false) (h2 : isAbsPath id2 = false)
    (hne : id1 ≠ id2) :
    memoryFilePath d id1 = osPathJoin d (id1 ++ ".json") ∧
    memoryFilePath d id1 ≠ memoryFilePath d id2 := by
  refine ⟨rfl, ?_⟩
  intro hEq
  apply hne
  unfold memoryFilePath osPathJoin at hEq
  rw [isAbsPath_append_json id1 h1, isAbsPath_append_json id2 h2] at hEq
  simp only [Bool.false_eq_true, if_false] at hEq
  by_cases hd : d = "" ∨ d.data.getLast? = some '/'
  · rw [if_pos hd, if_pos hd] at hEq
    exact append_json_inj _ _ (string_append_left_cancel _ _ _ hEq)
  · rw [if_neg hd, if_neg hd] at hEq
    exact append_json_inj _ _ (string_append_left_cancel _ _ _ hEq)

/-- Concrete instance of claim C7: the identities alice and bob under the
memory directory /mem use different storage files. -/
theorem memory_file_paths_disjoint_witness :
    isAbsPath "alice" = false ∧ isAbsPath "bob" = false ∧
    ("alice" : String) ≠ "bob" ∧
    memoryFilePath "/mem" "alice" ≠ memoryFilePath "/mem" "bob" :=
  ⟨by decide, by decide, by decide,
    (memory_file_paths_disjoint "/mem" "alice" "bob" (by decide) (by decide)
      (by decide)).2⟩

/-! ## Entrypoint orchestration (src/conversify/main.py) -/

/-- The orchestration steps of the entrypoint, in the order the code can
perform them. -/
inductive EntryEvent where
  | connect
  | createSession
  | startVideoTask
  | setupMetrics
  | waitParticipant
  | createAgent
  | registerShutdownCallback
  | startAvatar
  | startSession
  | startBackgroundAudio
  deriving DecidableEq, Repr

/-- The entrypoint coroutine of src/conversify/main.py lines 70-190 as the
sequence of orchestration steps one run performs. The booleans stand for
the branch conditions: llmInitOk (the AsyncClient construction does not
raise), vadPrewarmed (the prewarmed VAD is found, otherwise the function
returns), visionUse, avatarUse with avatarKeysPresent (missing SIMLI keys
raise RuntimeError before the avatar starts), and backgroundAudioUse. The
trace ends where the code returns or raises. -/
def entrypointTrace (llmInitOk vadPrewarmed visionUse avatarUse
    avatarKeysPresent backgroundAudioUse : Bool) : List EntryEvent :=
  [.connect] ++
  (if !llmInitOk then [] else
    if !vadPrewarmed then [] else
      [.createSession] ++
      (if visionUse then [.startVideoTask] else []) ++
      [.setupMetrics, .waitParticipant, .createAgent,
       .registerShutdownCallback] ++
      (if avatarUse && !avatarKeysPresent then [] else
        (if avatarUse then [.startAvatar] else []) ++
        [.startSession] ++
        (if backgroundAudioUse then [.startBackgroundAudio] else [])))

/-- The six steps named by claim C8, in the claimed order. -/
def claimOrderedSteps : List EntryEvent :=
  [.connect, .createSession, .waitParticipant, .createAgent,
   .registerShutdownCallback, .startSession]

/-- Claim C8: every run of the entrypoint performs the six named steps
strictly in the claimed order (a run that returns early or raises performs
a prefix of them), and a run that reaches the end performs all six:
connect, create the session, wait for a participant, create the agent,
register the shutdown callback, and only then start the session. -/
theorem entrypoint_step_order :
    ∀ llmInitOk vadPrewarmed visionUse avatarUse avatarKeysPresent
        backgroundAudioUse : Bool,
      ((entrypointTrace llmInitOk vadPrewarmed visionUse avatarUse
          avatarKeysPresent backgroundAudioUse).filter
            (fun e => claimOrderedSteps.contains e)).isPrefixOf
        claimOrderedSteps = true ∧
      (llmInitOk = true → vadPrewarmed = true →
        (avatarUse = false ∨ avatarKeysPresent = true) →
        (entrypointTrace llmInitOk vadPrewarmed visionUse avatarUse
            avatarKeysPresent backgroundAudioUse).filter
              (fun e => claimOrderedSteps.contains e) =
          claimOrderedSteps) := by
  decide

/-- Concrete instance of claim C8: the run with every feature enabled and
nothing failing performs exactly the six steps, in order. -/
theorem entrypoint_step_order_witness :
    (true = true) ∧ (true = false ∨ true = true) ∧
    (entrypointTrace true true true true true true).filter
        (fun e => claimOrderedSteps.contains e) = claimOrderedSteps :=
  ⟨rfl, Or.inr rfl,
    (entrypoint_step_order true true true true true true).2 rfl rfl
      (Or.inr rfl)⟩

/-! ## Embedding model (src/conversify/core/memory.py) -/

/-- The outcome of one client.embeddings.create call as
OllamaEmbeddingModel.get_embedding distinguishes it: an exception, a
response whose embedding is None (or is missing), or an embedding
vector. -/
inductive EmbedResponse where
  | exc (e : PyExc)
  | noVector
  | vector (v : List ℚ)
  deriving DecidableEq, Repr

/-- The Python expression x or y for an optional integer x, as in dim =
self._dimension or 768: integer truthiness, so both None and a cached
zero fall back to y. -/
def pyOrNat (x : Option Nat) (y : Nat) : Nat :=
  match x with
  | some n => if n = 0 then y else n
  | none => y

/-- OllamaEmbeddingModel.get_embedding, src/conversify/core/memory.py lines
176-201, as a function of the cached dimension state and the response of
the embeddings endpoint: blank input and every failure path return a zero
vector of length dim = self._dimension or 768 (pyOrNat, so a cached zero
also falls back to 768) and leave the cache unchanged; a returned vector
is passed through (np.array float32 conversion modelled as the identity on
the rational samples) and its length is cached when no dimension was
cached yet. The function is total: no branch raises. -/
def getEmbedding (dimension : Option Nat) (text : String)
    (resp : EmbedResponse) : List ℚ × Option Nat :=
  if pyStrip text = "" then
    (List.replicate (pyOrNat dimension 768) 0, dimension)
  else
    match resp with
    | .exc _ => (List.replicate (pyOrNat dimension 768) 0, dimension)
    | .noVector => (List.replicate (pyOrNat dimension 768) 0, dimension)
    | .vector v =>
      (v, if dimension = none then some v.length else dimension)

/-- Counterexample to claim C9 as frozen: a successful call that returns
an empty vector caches dimension zero (len of the empty vector), and at
that determined dimension a later failing call returns 768 zeros, because
the fallback dim = self._dimension or 768 treats the cached zero like
None; the claim instead demands a zero vector of the cached length, which
would be empty. -/
theorem get_embedding_zero_dimension_counterexample :
    getEmbedding none "probe" (.vector []) = ([], some 0) ∧
    getEmbedding (some 0) "hi" (.exc (.otherExc "boom")) =
      (List.replicate 768 0, some 0) ∧
    (List.replicate (768 : Nat) (0 : ℚ)).length ≠ 0 := by
  refine ⟨rfl, rfl, ?_⟩
  rw [List.length_replicate]
  decide

/-- Claim C9 (amended): get_embedding never raises; blank input, a failing
client and a missing vector all yield a zero vector whose length is the
cached embedding dimension when a nonzero one has been determined and 768
otherwise (the fallback self._dimension or 768 treats a cached zero like
None), leaving the cache unchanged; a returned vector is passed through as
the result and its length is cached exactly when no dimension was cached.
The behavioural cases cover every input, so the function is total. -/
theorem get_embedding_total (dimension : Option Nat) (text : String)
    (resp : EmbedResponse) :
    (∀ n, dimension = some n → n ≠ 0 → pyOrNat dimension 768 = n) ∧
    (dimension = none → pyOrNat dimension 768 = 768) ∧
    (dimension = some 0 → pyOrNat dimension 768 = 768) ∧
    (pyStrip text = "" →
      getEmbedding dimension text resp =
        (List.replicate (pyOrNat dimension 768) 0, dimension)) ∧
    (∀ e, resp = .exc e →
      getEmbedding dimension text resp =
        (List.replicate (pyOrNat dimension 768) 0, dimension)) ∧
    (resp = .noVector →
      getEmbedding dimension text resp =
        (List.replicate (pyOrNat dimension 768) 0, dimension)) ∧
    (∀ v, pyStrip text ≠ "" → resp = .vector v →
      getEmbedding dimension text resp =
        (v, if dimension = none then some v.length else dimension)) := by
  refine ⟨?_, ?_, ?_, ?_, ?_, ?_, ?_⟩
  · intro n hn hnz
    subst hn
    simp [pyOrNat, hnz]
  · intro hn
    subst hn
    rfl
  · intro hn
    subst hn
    rfl
  · intro hblank
    simp [getEmbedding, hblank]
  · intro e he
    subst he
    by_cases hblank : pyStrip text = "" <;> simp [getEmbedding, hblank]
  · intro he
    subst he
    by_cases hblank : pyStrip text = "" <;> simp [getEmbedding, hblank]
  · intro v hblank he
    subst he
    simp [getEmbedding, hblank]

/-- Concrete instance of claim C9: with no cached dimension, a blank text
yields 768 zeros; a successful three-sample vector at cached dimension
four is returned without recaching; and a failure at the determined
nonzero dimension three yields three zeros. -/
theorem get_embedding_total_witness :
    pyStrip "  " = "" ∧
    getEmbedding none "  " (.vector [1, 2, 3]) =
      (List.replicate (pyOrNat none 768) 0, none) ∧
    pyStrip "hi" ≠ "" ∧
    getEmbedding (some 4) "hi" (.vector [1, 2, 3]) =
      ([1, 2, 3], if (some 4 : Option Nat) = none then some 3 else some 4) ∧
    getEmbedding (some 3) "hi" (.exc (.otherExc "boom")) =
      (List.replicate (pyOrNat (some 3) 768) 0, some 3) ∧
    pyOrNat (some 3) 768 = 3 :=
  ⟨by decide,
    (get_embedding_total none "  " (.vector [1, 2, 3])).2.2.2.1 (by decide),
    by decide,
    (get_embedding_total (some 4) "hi" (.vector [1, 2, 3])).2.2.2.2.2.2
      [1, 2, 3] (by decide) rfl,
    (get_embedding_total (some 3) "hi" (.exc (.otherExc "boom"))).2.2.2.2.1
      (.otherExc "boom") rfl,
    (get_embedding_total (some 3) "hi" (.exc (.otherExc "boom"))).1 3 rfl
      (by decide)⟩

/-! ## Object identity for option records (claim C10) -/

/-- A heap of option records, making Python object identity explicit:
cells addressed by naturals, next the first unallocated address. -/
structure Heap (α : Type) where
  cells : Nat → α
  next : Nat

/-- Allocate a fresh cell holding v. -/
def heapAlloc {α : Type} (h : Heap α) (v : α) : Heap α × Nat :=
  ({ cells := fun n => if n = h.next then v else h.cells n,
     next := h.next + 1 }, h.next)

/-- Assign to the object at address r. -/
def heapWrite {α : Type} (h : Heap α) (r : Nat) (v : α) : Heap α :=
  { h with cells := fun n => if n = r then v else h.cells n }

/-- dataclasses.replace of an options object: allocate a fresh object
holding the same field values (the source object is not aliased). -/
def dataclassReplace {α : Type} (h : Heap α) (src : Nat) : Heap α × Nat :=
  heapAlloc h (h.cells src)

/-- WhisperSTT._sanitize_options over the heap, src/conversify/models/stt.py
lines 267-279: options = dataclasses.replace(self._opts) allocates a copy,
and a truthy language override is assigned to options.language on the
copy; self._opts (at optsRef) is never assigned. -/
def sanitizeOptionsHeap (h : Heap WhisperOptions) (optsRef : Nat)
    (language : Option String) : Heap WhisperOptions × Nat :=
  let alloc := dataclassReplace h optsRef
  let h1 := alloc.1
  let copyRef := alloc.2
  match language with
  | some l =>
    if l = "" then (h1, copyRef)
    else (heapWrite h1 copyRef { h1.cells copyRef with language := l },
          copyRef)
  | none => (h1, copyRef)

/-- KokoroTTSStream.__init__ over the heap, src/conversify/models/tts.py
lines 112-123: self._opts = replace(tts._opts) gives the stream a fresh
copy of the TTS instance options. -/
def kokoroStreamInit (h : Heap KokoroTTSOptions) (ttsOptsRef : Nat) :
    Heap KokoroTTSOptions × Nat :=
  dataclassReplace h ttsOptsRef

/-- Claim C10: a language override applied through _sanitize_options
mutates only a fresh copy, so the WhisperSTT instance options are
unchanged and the copy equals the pure sanitize result; and the Kokoro
stream copies the TTS instance options at construction, so any later
assignment to the stream options leaves the TTS instance options
unchanged. -/
theorem per_call_overrides_do_not_mutate
    (h : Heap WhisperOptions) (optsRef : Nat) (language : Option String)
    (hvalid : optsRef < h.next)
    (k : Heap KokoroTTSOptions) (ttsRef : Nat) (hkvalid : ttsRef < k.next)
    (v : KokoroTTSOptions) :
    ((sanitizeOptionsHeap h optsRef language).1).cells optsRef =
      h.cells optsRef ∧
    ((sanitizeOptionsHeap h optsRef language).1).cells
        (sanitizeOptionsHeap h optsRef language).2 =
      sanitizeOptions (h.cells optsRef) language ∧
    (heapWrite (kokoroStreamInit k ttsRef).1 (kokoroStreamInit k ttsRef).2
        v).cells ttsRef = k.cells ttsRef := by
  have hne : optsRef ≠ h.next := Nat.ne_of_lt hvalid
  have hkne : ttsRef ≠ k.next := Nat.ne_of_lt hkvalid
  refine ⟨?_, ?_, ?_⟩
  · cases language with
    | none =>
      simp [sanitizeOptionsHeap, dataclassReplace, heapAlloc, hne]
    | some l =>
      by_cases hl : l = "" <;>
        simp [sanitizeOptionsHeap, dataclassReplace, heapAlloc, heapWrite,
          hne, hl]
  · cases language with
    | none =>
      simp [sanitizeOptionsHeap, dataclassReplace, heapAlloc,
        sanitizeOptions]
    | some l =>
      by_cases hl : l = "" <;>
        simp [sanitizeOptionsHeap, dataclassReplace, heapAlloc, heapWrite,
          sanitizeOptions, hl]
  · simp [kokoroStreamInit, dataclassReplace, heapAlloc, heapWrite, hkne]

/-- Concrete instance of claim C10: one whisper options object and one
kokoro options object, each at address zero of a two-cell heap, survive a
sanitize with override and a stream options assignment unchanged. -/
theorem per_call_overrides_do_not_mutate_witness :
    (0 < 1) ∧
    ((sanitizeOptionsHeap
        { cells := fun _ => { language := "en", model := "small" }, next := 1 }
        0 (some "fr")).1).cells 0 =
      ({ language := "en", model := "small" } : WhisperOptions) ∧
    (heapWrite
        (kokoroStreamInit
          { cells := fun _ => { model := "kokoro", voice := "af", speed := 1 },
            next := 1 } 0).1
        (kokoroStreamInit
          { cells := fun _ => { model := "kokoro", voice := "af", speed := 1 },
            next := 1 } 0).2
        { model := "kokoro", voice := "am", speed := 2 }).cells 0 =
      ({ model := "kokoro", voice := "af", speed := 1 } : KokoroTTSOptions) := by
  have hmain := per_call_overrides_do_not_mutate
    { cells := fun _ => { language := "en", model := "small" }, next := 1 }
    0 (some "fr") (by decide)
    { cells := fun _ => { model := "kokoro", voice := "af", speed := 1 },
      next := 1 } 0 (by decide)
    { model := "kokoro", voice := "am", speed := 2 }
  exact ⟨by decide, hmain.1, hmain.2.2⟩

end Conversify
